import Mathlib

/-!
Verification development for the LabLib effect compiler.

The Python sources under `lablib/` are shallowly embedded: pure functions
become Lean functions, the stateful processors become explicit state
passing, float arithmetic is modelled over the real numbers, and Python
strings are modelled either as Lean strings or (where character-level
replacement semantics matter) as lists of characters.
-/

namespace LabLib

/-! ## Matrix primitives (`lablib/lib/utils.py`)

Matrices are 3x3 row-major homogeneous matrices over the reals, mirroring
the list-of-lists representation in the source. -/

abbrev Mat3 := Matrix (Fin 3) (Fin 3) ℝ

/-- Embeds `translate_matrix` from `lablib/lib/utils.py`. -/
def translate_matrix (t : ℝ × ℝ) : Mat3 :=
  !![1, 0, t.1; 0, 1, t.2; 0, 0, 1]

/-- Embeds `identity_matrix` from `lablib/lib/utils.py`: the source builds it
as a zero translation. -/
def identity_matrix : Mat3 := translate_matrix (0, 0)

/-- Embeds `rotate_matrix` from `lablib/lib/utils.py`; `math.radians(r)` is
modelled as multiplication by pi over 180. -/
noncomputable def rotate_matrix (r : ℝ) : Mat3 :=
  let rad := r * (Real.pi / 180)
  !![Real.cos rad, -Real.sin rad, 0; Real.sin rad, Real.cos rad, 0; 0, 0, 1]

/-- Embeds `scale_matrix` from `lablib/lib/utils.py`. -/
def scale_matrix (s : ℝ × ℝ) : Mat3 :=
  !![s.1, 0, 0; 0, s.2, 0; 0, 0, 1]

/-- Embeds `mirror_matrix` from `lablib/lib/utils.py`. -/
def mirror_matrix (x : Bool) : Mat3 :=
  scale_matrix (if x then (-1, 1) else (1, -1))

/-- Embeds `mult_matrix` from `lablib/lib/utils.py`: the hand-rolled
row-by-column product. -/
def mult_matrix (m1 m2 : Mat3) : Mat3 :=
  Matrix.of fun i k => ∑ j, m1 i j * m2 j k

/-- Embeds `flip_matrix` from `lablib/lib/utils.py`: a fold of the chain
over the hand-rolled product starting from the identity. -/
def flip_matrix (w : ℝ) : Mat3 :=
  [translate_matrix (w, 0), mirror_matrix true].foldl mult_matrix identity_matrix

/-- Embeds `flop_matrix` from `lablib/lib/utils.py`. -/
def flop_matrix (h : ℝ) : Mat3 :=
  [translate_matrix (0, h), mirror_matrix false].foldl mult_matrix identity_matrix

/-- Embeds `calculate_matrix` from `lablib/lib/utils.py`. -/
noncomputable def calculate_matrix (t : ℝ × ℝ) (r : ℝ) (s : ℝ × ℝ) (c : ℝ × ℝ) : Mat3 :=
  let c_inv : ℝ × ℝ := (-c.1, -c.2)
  let center := translate_matrix c
  let center_inv := translate_matrix c_inv
  let translate := translate_matrix t
  let rotate := rotate_matrix r
  let scale := scale_matrix s
  let result := mult_matrix translate center
  let result := mult_matrix result scale
  let result := mult_matrix result rotate
  mult_matrix result center_inv

lemma mult_matrix_eq_mul (m1 m2 : Mat3) : mult_matrix m1 m2 = m1 * m2 := by
  ext i k
  simp [mult_matrix, Matrix.mul_apply]

lemma identity_matrix_eq_one : identity_matrix = 1 := by
  rw [identity_matrix, translate_matrix, Matrix.one_fin_three]

/-! ## Reposition operators (`lablib/operators/repositions.py`) -/

/-- The value found under the scale key of a Transform node: the source
treats it as a list of two floats but it may also be a single float. -/
inductive ScaleValue
  | scalar (v : ℝ)
  | vec (p : ℝ × ℝ)

/-- Raw node data read from the effects JSON for a Transform node; `none`
models an absent dictionary key. -/
structure TransformNodeData where
  translate : Option (ℝ × ℝ) := none
  rotate : Option ℝ := none
  scale : Option ScaleValue := none
  center : Option (ℝ × ℝ) := none
  invert : Option Bool := none
  skewX : Option ℝ := none
  skewY : Option ℝ := none
  skew_order : Option String := none

/-- Embeds the `Transform` dataclass from `lablib/operators/repositions.py`
(the dataclass field defaults). -/
structure Transform where
  translate : ℝ × ℝ := (0, 0)
  rotate : ℝ := 0
  scale : ℝ × ℝ := (1, 1)
  center : ℝ × ℝ := (0, 0)
  invert : Bool := false
  skewX : ℝ := 0
  skewY : ℝ := 0
  skew_order : String := "XY"

/-- Embeds `Transform.from_node_data` from `lablib/operators/repositions.py`:
note the source uses `data.get("scale", [0.0, 0.0])` for the absent-key
default of the scale field. -/
def Transform.from_node_data (data : TransformNodeData) : Transform :=
  let scale := data.scale.getD (ScaleValue.vec (0, 0))
  let scale :=
    match scale with
    | ScaleValue.scalar v => (v, v)
    | ScaleValue.vec p => p
  { translate := data.translate.getD (0, 0)
    rotate := data.rotate.getD 0
    scale := scale
    center := data.center.getD (0, 0)
    invert := data.invert.getD false
    skewX := data.skewX.getD 0
    skewY := data.skewY.getD 0
    skew_order := data.skew_order.getD "XY" }

/-- Embeds the `Mirror2` dataclass from `lablib/operators/repositions.py`. -/
structure Mirror2 where
  flop : Bool := false
  flip : Bool := false

/-- Embeds `Mirror2.to_oiio_args` from `lablib/operators/repositions.py`:
the source appends the flop flag first, then the flip flag. -/
def Mirror2.to_oiio_args (m : Mirror2) : List String :=
  (if m.flop then ["--flop"] else []) ++ (if m.flip then ["--flip"] else [])

/-! ## Reposition processor (`lablib/processors/oiio_repositions.py`) -/

/-- Embeds `OIIORepositionProcessor.get_matrix_chained`: builds the chain of
matrices in source order and folds it with the hand-rolled product starting
from the identity. -/
noncomputable def get_matrix_chained (operators : List Transform)
    (source_width source_height : ℝ) (flip flop reverse_chain : Bool) : Mat3 :=
  let tlist := if reverse_chain then operators.reverse else operators
  let chain : List Mat3 :=
    (if flip then [flip_matrix source_width] else []) ++
    (if flop then [flop_matrix source_height] else []) ++
    tlist.map (fun xform =>
      calculate_matrix xform.translate xform.rotate xform.scale xform.center) ++
    (if flop then [flop_matrix source_height] else []) ++
    (if flip then [flip_matrix source_width] else [])
  chain.foldl mult_matrix identity_matrix

/-! ## Theorems for claims C1 and C2 -/

/-- C1: for every translate vector t, rotation angle r, scale vector s and
center c, the per-node matrix built by `calculate_matrix(t, r, s, c)` equals
the product translate(t) * translate(c) * scale(s) * rotate(r) *
translate(-c) of the primitive matrices, in exactly that multiplication
order. -/
theorem calculate_matrix_eq_product (t : ℝ × ℝ) (r : ℝ) (s : ℝ × ℝ) (c : ℝ × ℝ) :
    calculate_matrix t r s c =
      translate_matrix t * translate_matrix c * scale_matrix s *
        rotate_matrix r * translate_matrix (-c.1, -c.2) := by
  simp only [calculate_matrix, mult_matrix_eq_mul]

/-- C2: for every list of Transform operators and every setting of the flip
and flop flags, the chained matrix returned by
`OIIORepositionProcessor.get_matrix_chained` equals the left-to-right fold,
by matrix multiplication starting from the identity matrix, of the sequence
[flip matrix if flip] + [flop matrix if flop] + per-node matrices of the
operators in reverse list order + [flop matrix if flop] + [flip matrix if
flip]. -/
theorem get_matrix_chained_eq_fold (operators : List Transform)
    (w h : ℝ) (flip flop : Bool) :
    get_matrix_chained operators w h flip flop true =
      List.foldl (fun acc m => acc * m) (1 : Mat3)
        ((if flip then [flip_matrix w] else []) ++
         (if flop then [flop_matrix h] else []) ++
         operators.reverse.map (fun xform =>
           calculate_matrix xform.translate xform.rotate xform.scale xform.center) ++
         (if flop then [flop_matrix h] else []) ++
         (if flip then [flip_matrix w] else [])) := by
  have hm : mult_matrix = fun (a b : Mat3) => a * b :=
    funext fun a => funext fun b => mult_matrix_eq_mul a b
  simp only [get_matrix_chained, hm, identity_matrix_eq_one, if_true]

/-! ## Theorems for claims C4 and C9 -/

/-- C4 counterexample: decoding a Transform node with no scale key yields
scale (0, 0), not the (1, 1) stated by the claim. -/
theorem from_node_data_missing_scale_not_one :
    (Transform.from_node_data {}).scale = (0, 0) ∧
      (Transform.from_node_data {}).scale ≠ ((1 : ℝ), (1 : ℝ)) := by
  refine ⟨rfl, fun hcontra => ?_⟩
  have h0 : ((0 : ℝ), (0 : ℝ)) = ((1 : ℝ), (1 : ℝ)) := hcontra
  exact zero_ne_one (congrArg Prod.fst h0)

/-- C4 amended: decoding a Transform node fills absent fields with the
defaults translate=(0,0), rotate=0, scale=(0,0), center=(0,0), and when the
scale field is a single scalar v it is promoted to the 2-vector (v, v). -/
theorem from_node_data_defaults (d : TransformNodeData) :
    (Transform.from_node_data d).translate = d.translate.getD (0, 0) ∧
    (Transform.from_node_data d).rotate = d.rotate.getD 0 ∧
    (Transform.from_node_data d).center = d.center.getD (0, 0) ∧
    (Transform.from_node_data d).scale =
      (match d.scale with
        | none => ((0 : ℝ), (0 : ℝ))
        | some (ScaleValue.scalar v) => (v, v)
        | some (ScaleValue.vec p) => p) := by
  refine ⟨rfl, rfl, rfl, ?_⟩
  cases hs : d.scale with
  | none => simp [Transform.from_node_data, hs]
  | some sv => cases sv <;> simp [Transform.from_node_data, hs]

/-- C9 counterexample: with both mirror attributes set, the emitted argument
list places the flop flag before the flip flag, contradicting the claimed
flip-before-flop order. -/
theorem mirror_args_both_set_order :
    Mirror2.to_oiio_args { flop := true, flip := true } = ["--flop", "--flip"] ∧
      (["--flop", "--flip"] : List String) ≠ ["--flip", "--flop"] := by
  exact ⟨rfl, by decide⟩

/-- C9 amended: `to_oiio_args` emits the flip flag exactly when the flip
attribute is set and the flop flag exactly when the flop attribute is set,
and when both attributes are set the flop flag appears before the flip flag
in the emitted argument list. -/
theorem mirror_to_oiio_args_flags (m : Mirror2) :
    ("--flip" ∈ m.to_oiio_args ↔ m.flip = true) ∧
    ("--flop" ∈ m.to_oiio_args ↔ m.flop = true) ∧
    (m.flip = true → m.flop = true → m.to_oiio_args = ["--flop", "--flip"]) := by
  cases m with
  | mk flop flip => cases flop <;> cases flip <;> simp [Mirror2.to_oiio_args]

/-- Witness for the amended C9 theorem at a concrete mirror operator with
both attributes set. -/
theorem mirror_to_oiio_args_flags_witness :
    Mirror2.to_oiio_args { flop := true, flip := true } = ["--flop", "--flip"] :=
  (mirror_to_oiio_args_flags { flop := true, flip := true }).2.2 rfl rfl

/-! ## Effect file reference resolution
(`lablib/processors/ayon_hiero_effect_file.py`) -/

/-- Models `pathlib.PurePath.name` on a posix path string: the final path
component, i.e. the characters after the last slash. -/
def pathName (p : String) : String :=
  String.mk (p.toList.foldl (fun acc c => if c = '/' then [] else acc ++ [c]) [])

/-- Embeds `AYONHieroEffectsFileProcessor._sanitize_file_path`. The
filesystem is abstracted by the existence predicate `pathExists`, and the
map of recursively collected sibling files (basename to resolved path) by
`relativeFiles`; the function returns the path stored back into the node.
The source checks the target-directory override first, then the verbatim
existence of the literal path, then the sibling lookup. -/
def sanitize_file_path (target_dir_path : Option String)
    (pathExists : String → Bool) (relativeFiles : String → Option String)
    (file : String) : String :=
  match target_dir_path with
  | some d => d ++ "/" ++ pathName file
  | none =>
    if pathExists file then file
    else
      match relativeFiles (pathName file) with
      | none => file
      | some rel => rel

/-- C3 counterexample: with a target directory configured and the literal
path existing on disk, the stored path is the target-directory rewrite, not
the literal path that the claimed verbatim-first order would keep. -/
theorem sanitize_file_path_target_dir_wins :
    sanitize_file_path (some "/target") (fun _ => true) (fun _ => none)
        "/abs/lut.cube" = "/target/lut.cube" ∧
      ("/target/lut.cube" : String) ≠ "/abs/lut.cube" := by
  exact ⟨by decide, by decide⟩

/-- C3 amended: the effect-file processor resolves a file reference by
trying, in this order: (1) the explicit target-directory override when one
is configured, (2) a verbatim existence check of the literal path, (3) a
recursive filename-only lookup among sibling files of the effect document;
the first applicable step wins, and when none applies the literal path is
kept. -/
theorem sanitize_file_path_resolution_order (d : String)
    (pathExists : String → Bool) (relativeFiles : String → Option String)
    (f r : String) :
    (sanitize_file_path (some d) pathExists relativeFiles f =
        d ++ "/" ++ pathName f) ∧
    (pathExists f = true →
      sanitize_file_path none pathExists relativeFiles f = f) ∧
    (pathExists f = false → relativeFiles (pathName f) = some r →
      sanitize_file_path none pathExists relativeFiles f = r) ∧
    (pathExists f = false → relativeFiles (pathName f) = none →
      sanitize_file_path none pathExists relativeFiles f = f) := by
  refine ⟨rfl, fun he => ?_, fun he hr => ?_, fun he hr => ?_⟩ <;>
    simp [sanitize_file_path, he] <;> simp [hr]

/-- Witness for the amended C3 theorem at concrete inputs: a configured
target directory rewrites the path, and without one a successful sibling
lookup is used when the literal path does not exist. -/
theorem sanitize_file_path_resolution_order_witness :
    sanitize_file_path (some "/tgt") (fun _ => false)
        (fun _ => some "/sib/lut.cube") "/abs/lut.cube" = "/tgt/lut.cube" ∧
    sanitize_file_path none (fun _ => false)
        (fun _ => some "/sib/lut.cube") "/abs/lut.cube" = "/sib/lut.cube" :=
  ⟨((sanitize_file_path_resolution_order "/tgt" (fun _ => false)
      (fun _ => some "/sib/lut.cube") "/abs/lut.cube" "/sib/lut.cube").1).trans
      (by decide),
   (sanitize_file_path_resolution_order "/tgt" (fun _ => false)
      (fun _ => some "/sib/lut.cube") "/abs/lut.cube" "/sib/lut.cube").2.2.1
      rfl rfl⟩

/-! ## Effect compiler (`lablib/processors/ayon_hiero_effect_file.py`)

The per-node payload of an effect entry is left polymorphic: the source
passes the raw node dictionary through to the per-class decoder, and the
claims about `load()` concern only ordering and partitioning. -/

/-- The classes found by `inspect.getmembers(operators, inspect.isclass)`
on the `lablib.operators` package: the names exported by
`lablib/operators/__init__.py` that are classes. -/
def wrapperClassNames : List String :=
  ["BaseOperator", "ColorOperator", "OCIOCDLTransform", "OCIOColorSpace",
   "OCIOFileTransform", "AYONOCIOLookProduct", "RepositionOperator",
   "Transform", "Crop", "Mirror2", "CornerPin2D"]

inductive OpCategory
  | color
  | repo
  | unknown
deriving DecidableEq

/-- Modelled from the spec: `lablib/operators/base.py` (the `BaseOperator`
class) and the `ColorOperator` base class are not present under `src/`, so
the class hierarchy behind the two `isinstance` checks in `load()` cannot be
read off the source. The spec assigns the color category to the colorspace,
file-LUT, CDL and look-product operator variants and the geometric category
to Transform, Crop, Mirror and CornerPin; the two abstract base classes
themselves decode to instances of neither category. -/
def classCategory : String → OpCategory
  | "OCIOCDLTransform" => OpCategory.color
  | "OCIOColorSpace" => OpCategory.color
  | "OCIOFileTransform" => OpCategory.color
  | "AYONOCIOLookProduct" => OpCategory.color
  | "Transform" => OpCategory.repo
  | "Crop" => OpCategory.repo
  | "Mirror2" => OpCategory.repo
  | "CornerPin2D" => OpCategory.repo
  | _ => OpCategory.unknown

/-- A top-level value of the effects JSON whose value is an object carrying
a class name, an ordering key and an optional node dictionary; `node = none`
models an absent or falsy node value. -/
structure EffectEntry (ν : Type) where
  subTrackIndex : Int
  className : String
  node : Option ν

/-- An operator decoded from an effect entry, tagged with the category it
lands in through the `isinstance` checks of `load()`. -/
inductive EffectOperator (ν : Type)
  | color (className : String) (node : ν)
  | repo (className : String) (node : ν)

/-- Decoding one sorted entry inside the loop of `load()`: unknown class
names are skipped, entries without a truthy node value are skipped, and the
decoded object is appended only when it is an instance of one of the two
operator base classes. -/
def decodeEntry {ν : Type} (e : EffectEntry ν) : Option (EffectOperator ν) :=
  if e.className ∈ wrapperClassNames then
    match e.node with
    | none => none
    | some nodeValue =>
      match classCategory e.className with
      | OpCategory.color => some (EffectOperator.color e.className nodeValue)
      | OpCategory.repo => some (EffectOperator.repo e.className nodeValue)
      | OpCategory.unknown => none
  else none

/-- Sorting of the retained dictionary values of the effects JSON inside
`load()`: a stable sort by the subTrackIndex key. -/
def sortedOps {ν : Type} (entries : List (EffectEntry ν)) : List (EffectEntry ν) :=
  entries.mergeSort (fun a b => decide (a.subTrackIndex ≤ b.subTrackIndex))

/-- The loop of `load()` over the sorted entries: decode each entry and
append it to the color list or the reposition list by category. -/
def loadEntries {ν : Type} (entries : List (EffectEntry ν)) :
    List (EffectOperator ν) × List (EffectOperator ν) :=
  (sortedOps entries).foldl
    (fun acc e =>
      match decodeEntry e with
      | some (EffectOperator.color c n) =>
        (acc.1 ++ [EffectOperator.color c n], acc.2)
      | some (EffectOperator.repo c n) =>
        (acc.1, acc.2 ++ [EffectOperator.repo c n])
      | none => acc)
    ([], [])

/-- A top-level value of the parsed JSON object: only dictionary values are
retained by `load()`. -/
inductive TopValue (ν : Type)
  | dict (e : EffectEntry ν)
  | other

/-- Outcome of `json.load` on the effect file: either a parse error or the
list of top-level values in document order. -/
inductive ParseResult (ν : Type)
  | malformed (msg : String)
  | parsed (doc : List (TopValue ν))

/-- The operator lists held by the effects-file processor. -/
structure EffectProcState (ν : Type) where
  color_ops : List (EffectOperator ν) := []
  repo_ops : List (EffectOperator ν) := []

/-- Embeds `AYONHieroEffectsFileProcessor.load`: the operator lists are
cleared first, then the file is parsed; a parse failure raises after the
clearing, leaving the cleared lists in place, which is modelled by
returning the error message alongside the state. -/
def effectLoad {ν : Type} (st : EffectProcState ν) (raw : ParseResult ν) :
    EffectProcState ν × Option String :=
  let st : EffectProcState ν := { st with color_ops := [], repo_ops := [] }
  match raw with
  | ParseResult.malformed msg => (st, some msg)
  | ParseResult.parsed doc =>
    let all_ops := doc.filterMap (fun v =>
      match v with
      | TopValue.dict e => some e
      | TopValue.other => none)
    let (cs, rs) := loadEntries all_ops
    ({ st with color_ops := cs, repo_ops := rs }, none)

/-- Projection of `decodeEntry` onto the color category. -/
def decodeColorOp {ν : Type} (e : EffectEntry ν) : Option (EffectOperator ν) :=
  match decodeEntry e with
  | some (EffectOperator.color c n) => some (EffectOperator.color c n)
  | _ => none

/-- Projection of `decodeEntry` onto the reposition category. -/
def decodeRepoOp {ν : Type} (e : EffectEntry ν) : Option (EffectOperator ν) :=
  match decodeEntry e with
  | some (EffectOperator.repo c n) => some (EffectOperator.repo c n)
  | _ => none

lemma loadEntries_fold_eq {ν : Type} (l : List (EffectEntry ν))
    (acc1 acc2 : List (EffectOperator ν)) :
    l.foldl
      (fun acc e =>
        match decodeEntry e with
        | some (EffectOperator.color c n) =>
          (acc.1 ++ [EffectOperator.color c n], acc.2)
        | some (EffectOperator.repo c n) =>
          (acc.1, acc.2 ++ [EffectOperator.repo c n])
        | none => acc)
      (acc1, acc2) =
      (acc1 ++ l.filterMap decodeColorOp, acc2 ++ l.filterMap decodeRepoOp) := by
  induction l generalizing acc1 acc2 with
  | nil => simp
  | cons e rest ih =>
    cases hd : decodeEntry e with
    | none =>
      simp only [List.foldl_cons, hd, List.filterMap_cons, decodeColorOp,
        decodeRepoOp, hd]
      simpa using ih acc1 acc2
    | some op =>
      cases op with
      | color c n =>
        simp only [List.foldl_cons, hd, List.filterMap_cons, decodeColorOp,
          decodeRepoOp, hd]
        simpa using ih (acc1 ++ [EffectOperator.color c n]) acc2
      | repo c n =>
        simp only [List.foldl_cons, hd, List.filterMap_cons, decodeColorOp,
          decodeRepoOp, hd]
        simpa using ih acc1 (acc2 ++ [EffectOperator.repo c n])

/-- C5: after `load()`, the color-operator list is exactly the sequence of
color-decoded entries in the order of the stable sort by subTrackIndex, and
the reposition-operator list is exactly the sequence of reposition-decoded
entries in that same order: each partition preserves the relative order of
its source nodes. -/
theorem loadEntries_partition_order {ν : Type} (entries : List (EffectEntry ν)) :
    (loadEntries entries).1 = (sortedOps entries).filterMap decodeColorOp ∧
    (loadEntries entries).2 = (sortedOps entries).filterMap decodeRepoOp := by
  unfold loadEntries
  rw [loadEntries_fold_eq]
  exact ⟨by simp, by simp⟩

/-- C6: a malformed JSON input makes `load()` surface a parse error, and
after the error the color-operator list and the reposition-operator list
are both empty, whatever state the processor held before. -/
theorem effectLoad_malformed_clears {ν : Type} (st : EffectProcState ν)
    (msg : String) :
    (effectLoad st (ParseResult.malformed msg)).2 = some msg ∧
    (effectLoad st (ParseResult.malformed msg)).1.color_ops = [] ∧
    (effectLoad st (ParseResult.malformed msg)).1.repo_ops = [] :=
  ⟨rfl, rfl, rfl⟩

/-! ## Variable substitution (`lablib/generators/ocio_config.py`)

Python strings are modelled as lists of characters here, because
`_swap_variables` relies on the character-level semantics of `str.replace`
and of the `in` containment test. -/

/-- Fuel-indexed replacement of every non-overlapping occurrence of `pat`
by `rep`, scanning left to right; models Python `str.replace` for a
non-empty pattern. The fuel only bounds the recursion and is irrelevant
once it is at least the length of the scanned list. -/
def replaceFuel (pat rep : List Char) : Nat → List Char → List Char
  | _, [] => []
  | 0, s => s
  | Nat.succ fuel, c :: cs =>
    if pat.isPrefixOf (c :: cs) && !pat.isEmpty then
      rep ++ replaceFuel pat rep fuel (List.drop (pat.length - 1) cs)
    else
      c :: replaceFuel pat rep fuel cs

/-- Models Python `str.replace(pat, rep)` on character lists (for the
empty pattern the model returns the string unchanged, an edge case no
configured variable value hits). -/
def listReplace (pat rep s : List Char) : List Char :=
  replaceFuel pat rep s.length s

/-- Models the Python containment test `sub in s` on character lists. -/
def hasSubstr (s sub : List Char) : Bool :=
  s.tails.any (fun t => sub.isPrefixOf t)

/-- Models `text.replace("\\", "/")` from `_swap_variables`. -/
def normalizeSlashes (s : List Char) : List Char :=
  listReplace ['\\'] ['/'] s

/-- The loop of `_swap_variables` over the configured variables, carrying
the progressively slash-normalized text and the result variable that is
returned when no variable matches. -/
def swapLoop : List Char → List Char → List (List Char × List Char) → List Char
  | _, new_text, [] => new_text
  | text, new_text, (k, v) :: rest =>
    let v2 := normalizeSlashes v
    let text2 := normalizeSlashes text
    if hasSubstr text2 v2 then
      listReplace v2 ('$' :: k) text2
    else
      swapLoop text2 new_text rest

/-- Embeds `OCIOConfigFileGenerator._swap_variables`: the configured
variables are iterated in configuration order; the first one whose
slash-normalized value occurs in the slash-normalized text is substituted
and the loop breaks; with no match the original text is returned. -/
def swap_variables (vars : List (List Char × List Char)) (text : List Char) :
    List Char :=
  swapLoop text text vars

/-- Stated from the amended claim for comparison with the source
translation: normalize the path once, find the first configured variable
whose normalized value occurs as a substring, and replace every occurrence
of that value; with no match the path is unchanged. -/
def swapFirstSubstrSpec (vars : List (List Char × List Char))
    (text : List Char) : List Char :=
  match vars.find? (fun kv =>
      hasSubstr (normalizeSlashes text) (normalizeSlashes kv.2)) with
  | some (k, v) => listReplace (normalizeSlashes v) ('$' :: k) (normalizeSlashes text)
  | none => text

lemma replaceFuel_congr (pat rep : List Char) :
    ∀ (fuel1 fuel2 : Nat) (s : List Char),
      s.length ≤ fuel1 → s.length ≤ fuel2 →
      replaceFuel pat rep fuel1 s = replaceFuel pat rep fuel2 s := by
  intro fuel1
  induction fuel1 with
  | zero =>
    intro fuel2 s h1 _
    have hs : s = [] := List.eq_nil_of_length_eq_zero (Nat.le_zero.mp h1)
    subst hs
    cases fuel2 <;> rfl
  | succ f1 ih =>
    intro fuel2 s h1 h2
    cases s with
    | nil => cases fuel2 <;> rfl
    | cons c cs =>
      cases fuel2 with
      | zero => exact absurd h2 (by simp)
      | succ f2 =>
        simp only [replaceFuel]
        by_cases hp : (pat.isPrefixOf (c :: cs) && !pat.isEmpty) = true
        · rw [hp]
          simp only [if_true]
          have hlen : (List.drop (pat.length - 1) cs).length ≤ cs.length := by
            simp [Nat.sub_le]
          have hcs : cs.length ≤ f1 := Nat.le_of_succ_le_succ (by simpa using h1)
          have hcs2 : cs.length ≤ f2 := Nat.le_of_succ_le_succ (by simpa using h2)
          rw [ih f2 (List.drop (pat.length - 1) cs) (le_trans hlen hcs)
            (le_trans hlen hcs2)]
        · rw [Bool.not_eq_true] at hp
          rw [hp]
          simp only [Bool.false_eq_true, if_false]
          have hcs : cs.length ≤ f1 := Nat.le_of_succ_le_succ (by simpa using h1)
          have hcs2 : cs.length ≤ f2 := Nat.le_of_succ_le_succ (by simpa using h2)
          rw [ih f2 cs hcs hcs2]

lemma listReplace_nil (pat rep : List Char) : listReplace pat rep [] = [] := rfl

lemma listReplace_cons (pat rep : List Char) (c : Char) (cs : List Char) :
    listReplace pat rep (c :: cs) =
      if pat.isPrefixOf (c :: cs) && !pat.isEmpty then
        rep ++ listReplace pat rep (List.drop (pat.length - 1) cs)
      else
        c :: listReplace pat rep cs := by
  unfold listReplace
  simp only [List.length_cons, replaceFuel]
  by_cases hp : (pat.isPrefixOf (c :: cs) && !pat.isEmpty) = true
  · rw [hp]
    simp only [if_true]
    rw [replaceFuel_congr pat rep cs.length (List.drop (pat.length - 1) cs).length
      (List.drop (pat.length - 1) cs) (by simp [Nat.sub_le]) le_rfl]
  · rw [Bool.not_eq_true] at hp
    rw [hp]
    simp only [Bool.false_eq_true, if_false, List.cons.injEq, true_and]

lemma listReplace_single (c d : Char) (s : List Char) :
    listReplace [c] [d] s = s.map (fun x => if x = c then d else x) := by
  induction s with
  | nil => rfl
  | cons x xs ih =>
    rw [listReplace_cons]
    by_cases hx : x = c
    · subst hx
      simp [List.isPrefixOf, ih]
    · simp [List.isPrefixOf, hx, ih, Ne.symm hx]

lemma normalizeSlashes_idem (s : List Char) :
    normalizeSlashes (normalizeSlashes s) = normalizeSlashes s := by
  simp only [normalizeSlashes, listReplace_single, List.map_map]
  apply List.map_congr_left
  intro x _
  by_cases hx : x = '\\' <;> simp [hx]

lemma swapLoop_eq_spec (vars : List (List Char × List Char))
    (text new_text : List Char) :
    swapLoop text new_text vars =
      match vars.find? (fun kv =>
          hasSubstr (normalizeSlashes text) (normalizeSlashes kv.2)) with
      | some (k, v) =>
        listReplace (normalizeSlashes v) ('$' :: k) (normalizeSlashes text)
      | none => new_text := by
  induction vars generalizing text with
  | nil => rfl
  | cons kv rest ih =>
    obtain ⟨k, v⟩ := kv
    simp only [swapLoop, List.find?_cons]
    by_cases hm : hasSubstr (normalizeSlashes text) (normalizeSlashes v) = true
    · simp [hm]
    · rw [Bool.not_eq_true] at hm
      simp only [hm, Bool.false_eq_true, if_false]
      rw [ih (normalizeSlashes text)]
      simp [normalizeSlashes_idem, hm]

/-- C7 counterexample: with one configured variable whose value occurs in
the middle of the path but is not a prefix of it, the path is still
rewritten, contradicting the claimed prefix condition under which this path
would be left unchanged. -/
theorem swap_variables_rewrites_inner_substr :
    swap_variables [("A".toList, "bar".toList)] "/x/bar/y".toList =
        "/x/$A/y".toList ∧
      "bar".toList.isPrefixOf "/x/bar/y".toList = false ∧
      "/x/$A/y".toList ≠ "/x/bar/y".toList := by
  refine ⟨by decide, by decide, by decide⟩

/-- C7 amended: for every path and every configured mapping, the
path-rewriting step substitutes at most one variable: the first configured
variable (in configuration order) whose slash-normalized literal value
occurs as a substring of the slash-normalized path has every occurrence of
that value replaced by the dollar-name, and no further variables are
substituted into the same path; when no variable matches, the path is
returned unchanged. -/
theorem swap_variables_first_substr (vars : List (List Char × List Char))
    (text : List Char) :
    swap_variables vars text = swapFirstSubstrSpec vars text := by
  rw [swap_variables, swapLoop_eq_spec, swapFirstSubstrSpec]

/-! ## OCIO transform objects (`lablib/operators/utils.py` and the
PyOpenColorIO objects built by the processors) -/

inductive TransformDirection
  | forward
  | inverse
deriving DecidableEq

inductive Interpolation
  | linear
  | best
  | nearest
  | tetrahedral
  | cubic
  | interpDefault
deriving DecidableEq

/-- Embeds `get_direction` from `lablib/operators/utils.py`. -/
def get_direction (direction : String) : TransformDirection :=
  if direction = "inverse" then TransformDirection.inverse
  else TransformDirection.forward

/-- Embeds `get_interpolation` from `lablib/operators/utils.py`. -/
def get_interpolation (interpolation : String) : Interpolation :=
  if interpolation = "linear" then Interpolation.linear
  else if interpolation = "best" then Interpolation.best
  else if interpolation = "nearest" then Interpolation.nearest
  else if interpolation = "tetrahedral" then Interpolation.tetrahedral
  else if interpolation = "cubic" then Interpolation.cubic
  else Interpolation.interpDefault

/-- The native OCIO transform objects the processors build: file
transforms and colorspace transforms expose a source via getSrc, CDL
transforms do not. -/
inductive OCIOTransformObj
  | fileTransform (src : String) (cccId : String)
      (interpolation : Interpolation) (direction : TransformDirection)
  | colorSpaceTransform (src dst : String)
  | cdlTransform (slope offset power : List ℝ) (sat : ℝ)
      (direction : TransformDirection)

/-! ## Look file processor (`lablib/processors/ayon_ociolook_file.py`) -/

/-- One entry of `data.ocioLookItems` in a look-product document; `none`
for the file field models an absent or empty value. -/
structure LookItem where
  name : String
  ext : String
  file : Option String
  input_colorspace : String
  output_colorspace : String
  direction : String
  interpolation : String

/-- A parsed look-product document: the version key is optional and
defaults to 1 inside `load()`. -/
structure LookDoc where
  version : Option Int
  lookItems : List LookItem
  workingSpace : String

/-- Outcome of `json.load` on the look file. -/
inductive LookParse
  | malformed (msg : String)
  | parsed (doc : LookDoc)

/-- The operator list held by the look-file processor. -/
structure LookState where
  operators : List OCIOTransformObj := []

/-- Models `pathlib.PurePath.stem`: the final component with its last
extension removed. -/
def pathStem (p : String) : String :=
  let n := (pathName p).toList
  if n.contains '.' then
    String.mk (n.reverse.dropWhile (fun c => c ≠ '.') |>.drop 1 |>.reverse)
  else String.mk n

/-- Embeds `AYONOCIOLookFileProcessor._sanitize_file_path`: an item that
already carries a truthy file value is untouched; otherwise the configured
target path stem plus the item extension is used, or the first recursively
collected sibling file whose name ends with the extension. -/
def lookSanitizeFilePath (target_path : Option String)
    (relativeFiles : List (String × String)) (item : LookItem) : LookItem :=
  if item.file.getD "" ≠ "" then item
  else
    match target_path with
    | some tp => { item with file := some (pathStem tp ++ "." ++ item.ext) }
    | none =>
      match relativeFiles.find? (fun fp => fp.1.endsWith item.ext) with
      | some fp => { item with file := some fp.2 }
      | none => item

/-- Embeds `AYONOCIOLookFileProcessor._process_look_file_to_color_operators`:
thread the current working colorspace through the items, inserting a
colorspace conversion whenever it differs from the next input colorspace,
then convert back to the working space at the end. On an empty item list
the source raises a NameError at the final comparison, modelled as an
error result. (The source would also raise a KeyError on an item still
missing its file value; that path is not modelled and the file value
defaults to the empty string here.) -/
def processLookItems (workingSpace : String) (items : List LookItem) :
    Except String (List OCIOTransformObj) :=
  match items with
  | [] => Except.error "NameError: current_working_colorspace is not defined"
  | _ =>
    let step := fun (acc : List OCIOTransformObj × String) (item : LookItem) =>
      let ops :=
        if acc.2 ≠ item.input_colorspace then
          acc.1 ++ [OCIOTransformObj.colorSpaceTransform acc.2 item.input_colorspace]
        else acc.1
      let ops := ops ++
        [OCIOTransformObj.fileTransform (item.file.getD "") ""
          (get_interpolation item.interpolation) (get_direction item.direction)]
      (ops, item.output_colorspace)
    let folded := items.foldl step ([], workingSpace)
    Except.ok
      (if folded.2 ≠ workingSpace then
        folded.1 ++ [OCIOTransformObj.colorSpaceTransform folded.2 workingSpace]
      else folded.1)

/-- Embeds `AYONOCIOLookFileProcessor.load`: clear the operators, parse the
document, check the schema version against 1, sanitize the item file
references and compile them into color operators; any raised error is
returned alongside the state left behind by the raise. -/
def lookLoad (st : LookState) (target_path : Option String)
    (relativeFiles : List (String × String)) (raw : LookParse) :
    LookState × Option String :=
  let st : LookState := { st with operators := [] }
  match raw with
  | LookParse.malformed msg => (st, some msg)
  | LookParse.parsed doc =>
    let schema_data_version := doc.version.getD 1
    if schema_data_version ≠ 1 then
      (st, some ("Schema data version " ++ toString schema_data_version ++
        " is not supported"))
    else
      let items := doc.lookItems.map (lookSanitizeFilePath target_path relativeFiles)
      match processLookItems doc.workingSpace items with
      | Except.error msg => (st, some msg)
      | Except.ok ops => ({ st with operators := ops }, none)

/-- C8: for every look-product document whose version field is present with
a value other than 1, `load()` surfaces a fatal error and the processor
holds no color operators. -/
theorem lookLoad_version_error (st : LookState) (target_path : Option String)
    (relativeFiles : List (String × String)) (doc : LookDoc) (v : Int)
    (hv : doc.version = some v) (hne : v ≠ 1) :
    (lookLoad st target_path relativeFiles (LookParse.parsed doc)).2.isSome = true ∧
    (lookLoad st target_path relativeFiles (LookParse.parsed doc)).1.operators = [] := by
  unfold lookLoad
  simp [hv, hne]

/-- Witness for the C8 theorem at a concrete document carrying version 2. -/
theorem lookLoad_version_error_witness :
    (({ version := some 2, lookItems := [], workingSpace := "ws" } : LookDoc).version
        = some 2) ∧
    (2 : Int) ≠ 1 ∧
    (lookLoad {} none []
        (LookParse.parsed
          { version := some 2, lookItems := [], workingSpace := "ws" })).2.isSome
      = true ∧
    (lookLoad {} none []
        (LookParse.parsed
          { version := some 2, lookItems := [], workingSpace := "ws" })).1.operators
      = [] := by
  refine ⟨rfl, by decide, ?_, ?_⟩
  · exact (lookLoad_version_error {} none []
      { version := some 2, lookItems := [], workingSpace := "ws" } 2 rfl
      (by decide)).1
  · exact (lookLoad_version_error {} none []
      { version := some 2, lookItems := [], workingSpace := "ws" } 2 rfl
      (by decide)).2

/-! ## OCIO config generator (`lablib/generators/ocio_config.py`)

The filesystem behind the `is_file` and `is_dir` probes is abstracted by a
pair of predicates; `resolve()` and `as_posix()` are modelled as the
identity on already-absolute posix paths. -/

/-- Abstract filesystem for the search-path sanitization. -/
structure FileSystem where
  isFile : String → Bool
  isDir : String → Bool

/-- Models the pathlib join `parent / p`: an absolute right operand
replaces the left one. -/
def joinPath (parent p : String) : String :=
  if p.startsWith "/" then p else parent ++ "/" ++ p

/-- Models `pathlib.PurePath.parent` on a posix path string. -/
def parentDir (p : String) : String :=
  let l := p.toList
  if l.contains '/' then
    String.mk ((l.reverse.dropWhile (fun c => c ≠ '/')).drop 1 |>.reverse)
  else "."

/-- Bridges `_swap_variables` (modelled on character lists) back to
strings, as used on each appended search path. -/
def swapStr (vars : List (String × String)) (s : String) : String :=
  String.mk (swap_variables (vars.map (fun kv => (kv.1.toList, kv.2.toList)))
    s.toList)

/-- The source of an OCIO transform object, for the objects exposing a
getSrc attribute: file transforms and colorspace transforms do, CDL
transforms do not. -/
def getSrcList (ops : List OCIOTransformObj) : List String :=
  ops.filterMap (fun op =>
    match op with
    | OCIOTransformObj.fileTransform src _ _ _ => some src
    | OCIOTransformObj.colorSpaceTransform src _ => some src
    | OCIOTransformObj.cdlTransform _ _ _ _ _ => none)

/-- Embeds `OCIOConfigFileGenerator._sanitize_search_paths`: each candidate
is joined onto the directory of the base config; files contribute their
containing directory, directories themselves, anything else is silently
dropped; the result is de-duplicated. Python set iteration order is
unspecified and is modelled as first-occurrence order. -/
def sanitize_search_paths (fs : FileSystem) (configParent : String)
    (paths : List String) : List String :=
  let real_paths := paths.filterMap (fun p =>
    let computed := joinPath configParent p
    if fs.isFile computed then some (parentDir computed)
    else if fs.isDir computed then some computed
    else none)
  real_paths.dedup

/-- Embeds `OCIOConfigFileGenerator._change_src_paths_to_names`: operators
exposing a source path have it replaced by its variable-substituted
basename (and a non-empty cccId variable-substituted as well). -/
def changeSrcToName (vars : List (String × String)) :
    OCIOTransformObj → OCIOTransformObj
  | OCIOTransformObj.fileTransform src cccId i d =>
    OCIOTransformObj.fileTransform (swapStr vars (pathName src))
      (if cccId ≠ "" then swapStr vars cccId else cccId) i d
  | OCIOTransformObj.colorSpaceTransform src dst =>
    OCIOTransformObj.colorSpaceTransform (swapStr vars (pathName src)) dst
  | OCIOTransformObj.cdlTransform slope offset power sat d =>
    OCIOTransformObj.cdlTransform slope offset power sat d

/-- The in-memory OCIO config object, restricted to the state touched by
`process_config`. -/
structure OCIOConfig where
  description : String := ""
  colorSpaces : List String := []
  looks : List String := []
  activeDisplays : String := ""
  activeViews : String := ""
  displayViews : List (String × String × String × String) := []
  envVars : List (String × String) := []
  searchPaths : List String := []

/-- The generator state feeding `process_config`. -/
structure OCIOGenState where
  context : String
  family : String := "LabLib"
  working_space : String := "ACES - ACEScg"
  target_view_space : String := "ACES - ACEScg"
  description : String := "LabLib OCIO Config"
  views : List String := []
  vars : List (String × String) := []
  ocio_search_paths : List String := []
  operators : List OCIOTransformObj := []

/-- Embeds `OCIOConfigFileGenerator.process_config`: set the description,
register the synthesized color space, look and display view, set the active
views, add the environment variables, then set the first search path via
the single-entry setter before appending the rest; with an empty search
path list the first-element access raises an IndexError, modelled as an
error result. The final `validate()` call on the underlying library object
is not modelled. -/
def process_config (gen : OCIOGenState) (cfg : OCIOConfig) :
    Except String OCIOConfig :=
  let cfg := { cfg with description := gen.description }
  let cfg := { cfg with colorSpaces := cfg.colorSpaces ++ [gen.context] }
  let cfg := { cfg with looks := cfg.looks ++ [gen.context] }
  let firstDisplay := (cfg.activeDisplays.splitOn ",").headD ""
  let cfg := { cfg with displayViews := cfg.displayViews ++
    [(firstDisplay, gen.context, gen.target_view_space, gen.context)] }
  let views_value :=
    if gen.views = [] then cfg.activeViews
    else String.intercalate "," gen.views
  let cfg := { cfg with activeViews := gen.context ++ "," ++ views_value }
  let cfg := { cfg with envVars := cfg.envVars ++ gen.vars }
  match gen.ocio_search_paths with
  | [] => Except.error "IndexError: list index out of range"
  | p :: rest => Except.ok { cfg with searchPaths := p :: rest }

/-- Embeds the compile part of `OCIOConfigFileGenerator.create_config`:
against a freshly loaded base config, collect the absolute search paths
(the base config search paths plus every operator source, whether or not it
exists), sanitize and variable-substitute them into the generator state,
rewrite operator sources to their basenames, and process the config. The
final serialization to disk is not modelled. -/
def create_config (fs : FileSystem) (gen : OCIOGenState) (cfg : OCIOConfig)
    (configParent : String) : Except String OCIOConfig :=
  let collected :=
    sanitize_search_paths fs configParent (cfg.searchPaths ++ getSrcList gen.operators)
  let gen := { gen with ocio_search_paths :=
    gen.ocio_search_paths ++ collected.map (swapStr gen.vars) }
  let gen := { gen with operators := gen.operators.map (changeSrcToName gen.vars) }
  process_config gen cfg

/-- C10: when the base configuration declares no search paths, the
generator was constructed with none, and no operator source exists on the
filesystem (non-existent paths are silently dropped by sanitization),
`create_config` fails with the out-of-bounds first-element access instead
of producing a configuration without search paths. -/
theorem create_config_empty_search_paths_fails (fs : FileSystem)
    (gen : OCIOGenState) (cfg : OCIOConfig) (configParent : String)
    (hbase : cfg.searchPaths = [])
    (hpreset : gen.ocio_search_paths = [])
    (hops : ∀ src ∈ getSrcList gen.operators,
      fs.isFile (joinPath configParent src) = false ∧
      fs.isDir (joinPath configParent src) = false) :
    create_config fs gen cfg configParent =
      Except.error "IndexError: list index out of range" := by
  have hsan : sanitize_search_paths fs configParent
      (cfg.searchPaths ++ getSrcList gen.operators) = [] := by
    rw [hbase, List.nil_append, sanitize_search_paths]
    have : (getSrcList gen.operators).filterMap (fun p =>
        let computed := joinPath configParent p
        if fs.isFile computed then some (parentDir computed)
        else if fs.isDir computed then some computed
        else none) = [] := by
      rw [List.filterMap_eq_nil_iff]
      intro src hsrc
      obtain ⟨hf, hd⟩ := hops src hsrc
      simp [hf, hd]
    rw [this]
    rfl
  rw [create_config, hsan]
  simp only [List.map_nil, hpreset, List.append_nil]
  rfl

/-- Witness for the C10 theorem: a generator holding a single file
transform whose source does not exist, against a base config with no
search paths, on a filesystem where nothing exists. -/
theorem create_config_empty_search_paths_fails_witness :
    ({ searchPaths := [] : OCIOConfig }).searchPaths = [] ∧
    ({ context := "shot", operators :=
        [OCIOTransformObj.fileTransform "/missing/lut.cube" ""
          Interpolation.linear TransformDirection.forward] } :
      OCIOGenState).ocio_search_paths = [] ∧
    create_config ⟨fun _ => false, fun _ => false⟩
        { context := "shot", operators :=
          [OCIOTransformObj.fileTransform "/missing/lut.cube" ""
            Interpolation.linear TransformDirection.forward] }
        { searchPaths := [] } "/base" =
      Except.error "IndexError: list index out of range" := by
  refine ⟨rfl, rfl, ?_⟩
  exact create_config_empty_search_paths_fails ⟨fun _ => false, fun _ => false⟩
    { context := "shot", operators :=
      [OCIOTransformObj.fileTransform "/missing/lut.cube" ""
        Interpolation.linear TransformDirection.forward] }
    { searchPaths := [] } "/base" rfl rfl
    (by intro src _; exact ⟨rfl, rfl⟩)

end LabLib
